import Mathlib

/-!
Verification of the CD/CPL spectrometer acquisition engine
(repository `cd_code`: `controller.py`, `controller_new.py`, `mfli.py`).

The development shallowly embeds the numerical and control-flow core of the
two `Controller` revisions:

* namespace `ControllerNew` — `controller_new.py` (`calc_cd`,
  `df_average_spectra`, `add_data_to_avg_spec`, the `record_spec` retry/abort
  machinery, `monit_osc_loop`, the phase-offset calibration helpers, and
  `start_spec` validation);
* namespace `ControllerOld` — `controller.py` (its `calc_cd`);
* namespace `MFLI` — `mfli.py` (`read_data`).

Pandas column operations are elementwise over rows sharing one wavelength
index, so a spectrum DataFrame is modelled by one row (`SpecRow`) and the
column formulas become field formulas; `x ** 0.5` is written `Real.sqrt x`
(every base that occurs is a sum of squares, hence nonnegative, where the two
agree).  Machine floats are modelled by `ℝ` where square roots occur and by
`ℚ` where decidable evaluation is needed; `NaN` is modelled by `Option`.
-/

/-- One wavelength row of the `controller_new.py` spectrum DataFrame
(`np_to_pd` columns, the `WL` index aside):
`DC, DC_std, AC, AC_std, CD, CD_std, I_L, I_L_std, I_R, I_R_std, gabs,
gabs_std, m_ellip, m_ellip_std, ellip, ellip_std`. -/
structure SpecRow where
  DC : ℝ
  DC_std : ℝ
  AC : ℝ
  AC_std : ℝ
  CD : ℝ
  CD_std : ℝ
  I_L : ℝ
  I_L_std : ℝ
  I_R : ℝ
  I_R_std : ℝ
  gabs : ℝ
  gabs_std : ℝ
  m_ellip : ℝ
  m_ellip_std : ℝ
  ellip : ℝ
  ellip_std : ℝ


namespace ControllerNew

/-- `controller_new.py`, `Controller.calc_cd` (lines 1135–1165): recomputes the
derived channels and their Gaussian error propagation from the (possibly
baseline-corrected) primary channels `AC`, `DC` and their stddevs.
The assignments are sequential, so later formulas use the freshly written
`ellip`, `I_L`, `I_R`. -/
noncomputable def calc_cd (path_l sample_c : ℝ) (df : SpecRow) : SpecRow :=
  let CD := 3298.2 * df.AC / (df.DC * path_l * sample_c)
  let I_L := df.AC + df.DC
  let I_R := df.DC - df.AC
  let ellip := df.AC / df.DC
  let m_ellip := ellip / (path_l * sample_c)
  let gabs := (I_L - I_R) / (I_L + I_R)
  let CD_std := Real.sqrt ((3298.2 / (df.DC * path_l * sample_c) * df.AC_std) ^ 2 +
    (-3298.2 * df.AC / (df.DC ^ 2 * path_l * sample_c) * df.DC_std) ^ 2)
  let I_L_std := Real.sqrt (df.AC_std ^ 2 + df.DC_std ^ 2)
  let I_R_std := Real.sqrt (df.AC_std ^ 2 + df.DC_std ^ 2)
  let ellip_std := Real.sqrt ((1 / df.DC * df.AC_std) ^ 2 +
    (-df.AC / df.DC ^ 2 * df.DC_std) ^ 2)
  let m_ellip_std := ellip_std / (path_l * sample_c)
  let partial_IL := 2 * I_R / (I_L + I_R) ^ 2
  let partial_IR := -2 * I_L / (I_L + I_R) ^ 2
  let gabs_std := Real.sqrt ((partial_IL * I_L_std) ^ 2 + (partial_IR * I_R_std) ^ 2)
  { df with
    CD := CD, I_L := I_L, I_R := I_R, ellip := ellip, m_ellip := m_ellip, gabs := gabs,
    CD_std := CD_std, I_L_std := I_L_std, I_R_std := I_R_std, ellip_std := ellip_std,
    m_ellip_std := m_ellip_std, gabs_std := gabs_std }

end ControllerNew

/-- One wavelength row of the `controller.py` spectrum DataFrame
(its `np_to_pd` columns, the `WL` index aside): `DC, DC_std, AC, AC_std, I_L,
I_L_std, I_R, I_R_std, gabs, gabs_std, ld, ld_std, mollar_ellips,
molar_ellips_std, ellips, ellips_std`. -/
structure OldSpecRow where
  DC : ℝ
  DC_std : ℝ
  AC : ℝ
  AC_std : ℝ
  I_L : ℝ
  I_L_std : ℝ
  I_R : ℝ
  I_R_std : ℝ
  gabs : ℝ
  gabs_std : ℝ
  ld : ℝ
  ld_std : ℝ
  mollar_ellips : ℝ
  molar_ellips_std : ℝ
  ellips : ℝ
  ellips_std : ℝ


namespace ControllerOld

/-- `controller.py`, `Controller.calc_cd` (lines 787–797).  Note the source
line `df['gabs'] = (df['I_L'] - df['I_R']) / (df['I_L'] - df['I_R'])`: the
denominator is `I_L - I_R`, not `I_L + I_R`, while the propagated `gabs_std`
two lines below is the error formula of `(I_L - I_R)/(I_L + I_R)`. -/
noncomputable def calc_cd (df : OldSpecRow) : OldSpecRow :=
  let I_L := df.AC + df.DC
  let I_R := df.DC - df.AC
  let gabs := (I_L - I_R) / (I_L - I_R)
  let I_L_std := Real.sqrt (df.AC_std ^ 2 + df.DC_std ^ 2)
  let I_R_std := I_L_std
  let gabs_std := Real.sqrt ((4 * I_R ^ 2 / (I_L + I_R) ^ 4) * I_L_std ^ 2 +
    (4 * I_L ^ 2 / (I_L + I_R) ^ 4) * I_R_std ^ 2)
  { df with
    I_L := I_L, I_R := I_R, gabs := gabs,
    I_L_std := I_L_std, I_R_std := I_R_std, gabs_std := gabs_std }

end ControllerOld

/-- Failing input for C1: a row with `AC = 1`, `DC = 2` (all other columns 0)
fed to the `controller.py` revision of `calc_cd`. -/
def c1_failing_row : OldSpecRow :=
  { DC := 2, DC_std := 0, AC := 1, AC_std := 0, I_L := 0, I_L_std := 0, I_R := 0, I_R_std := 0,
    gabs := 0, gabs_std := 0, ld := 0, ld_std := 0, mollar_ellips := 0, molar_ellips_std := 0,
    ellips := 0, ellips_std := 0 }

/-- C1: every row produced by `controller_new.py`'s `calc_cd` (the version used
by `apply_corr` and `df_average_spectra` there) satisfies `I_L = AC + DC`,
`I_R = DC − AC` and `gabs = (I_L − I_R)/(I_L + I_R)`; but the `controller.py`
revision of `calc_cd` divides by `I_L − I_R` instead: on the row `AC = 1`,
`DC = 2` it yields `gabs = 1` where the claimed formula gives `1/2`. -/
theorem c1_calc_cd_formulas :
    (∀ (path_l sample_c : ℝ) (df : SpecRow),
      (ControllerNew.calc_cd path_l sample_c df).I_L
          = (ControllerNew.calc_cd path_l sample_c df).AC
            + (ControllerNew.calc_cd path_l sample_c df).DC
        ∧ (ControllerNew.calc_cd path_l sample_c df).I_R
          = (ControllerNew.calc_cd path_l sample_c df).DC
            - (ControllerNew.calc_cd path_l sample_c df).AC
        ∧ (ControllerNew.calc_cd path_l sample_c df).gabs
          = ((ControllerNew.calc_cd path_l sample_c df).I_L
              - (ControllerNew.calc_cd path_l sample_c df).I_R)
            / ((ControllerNew.calc_cd path_l sample_c df).I_L
              + (ControllerNew.calc_cd path_l sample_c df).I_R))
    ∧ (ControllerOld.calc_cd c1_failing_row).gabs = 1
    ∧ ((ControllerOld.calc_cd c1_failing_row).I_L - (ControllerOld.calc_cd c1_failing_row).I_R)
        / ((ControllerOld.calc_cd c1_failing_row).I_L + (ControllerOld.calc_cd c1_failing_row).I_R)
        = 1 / 2 := by
  refine ⟨fun path_l sample_c df => ⟨rfl, rfl, rfl⟩, ?_, ?_⟩
  · show ((1 + 2 : ℝ) - (2 - 1)) / ((1 + 2) - (2 - 1)) = 1
    norm_num
  · show ((1 + 2 : ℝ) - (2 - 1)) / ((1 + 2) + (2 - 1)) = 1 / 2
    norm_num

namespace ControllerNew

/-- `controller_new.py`, `Controller.cal_get_new_phaseoffset` (lines
1475–1491); byte-identical in `controller.py` (lines 992–1008).  The two
sequential `if not skipped: difference += …; n += 1` accumulations are written
as sums of the two guarded contributions; the Python `float('NaN')` initial
result, kept when `n = 0`, is modelled as `none`. -/
def cal_get_new_phaseoffset (phaseoffset cal_pos_theta cal_neg_theta : ℚ)
    (skipped_pos skipped_neg : Bool) : Option ℚ :=
  let n : ℚ := (if skipped_pos then 0 else 1) + (if skipped_neg then 0 else 1)
  let difference : ℚ := (if skipped_pos then 0 else cal_pos_theta - 90)
    + (if skipped_neg then 0 else cal_neg_theta + 90)
  if 0 < n then some (phaseoffset + difference / n) else none

/-- `controller_new.py`, `Controller.cal_apply_new` (lines 1493–1495); same in
`controller.py` (lines 1010–1012): the new offset is written to the lock-in
(`set_phaseoffset`) only when `cal_new_value` is not NaN.  The result is the
value written, `none` when no write happens. -/
def cal_apply_new (cal_new_value : Option ℚ) : Option ℚ :=
  match cal_new_value with
  | some v => some v
  | none => none

end ControllerNew

/-- The slice of one `data_with_WL` column used by `add_data_to_avg_spec`: the
wavelength plus the entries at `index_dc = 1`, `index_ac = 3`, `index_cd = 5`,
`index_gabs = 11`, `index_ellip = 15` of the acquired data vector. -/
structure DataPoint where
  wl : ℚ
  dc : ℚ
  ac : ℚ
  cd : ℚ
  gabs : ℚ
  ellip : ℚ
  deriving DecidableEq

/-- One wavelength column of `avg_spec`.  Per the repetition-0 insertion and
the structure comment in `add_data_to_avg_spec`, the six numpy rows are
`[[WL], [DC], [AC], [CD], [gabs], [ellips]]`, so field `dc` is `avg_spec[1]`,
`ac` is `avg_spec[2]`, `cd` is `avg_spec[3]`, `gabs` is `avg_spec[4]` and
`ellip` is `avg_spec[5]`. -/
structure AvgRow where
  wl : ℚ
  dc : ℚ
  ac : ℚ
  cd : ℚ
  gabs : ℚ
  ellip : ℚ
  deriving DecidableEq

namespace ControllerNew

/-- The `curr_rep > 0` branch of `add_data_to_avg_spec` (`controller_new.py`
lines 984–998), applied to the matching row: reaverage `avg_spec[1]` and
`avg_spec[2]`, then overwrite `avg_spec[2]` ("recalculate CD"), `avg_spec[3]`
("recalculate gabs") and `avg_spec[5]` ("recalculate ellip") in that order;
`avg_spec[4]` is never written. -/
def update_avg_row (sample_c path_l : ℚ) (d : DataPoint) (curr_rep : ℕ) (r : AvgRow) : AvgRow :=
  let dc := (r.dc * curr_rep + d.dc) / (curr_rep + 1)
  let ac := (r.ac * curr_rep + d.ac) / (curr_rep + 1)
  let ac2 := (ac / dc) / (sample_c * path_l)
  let cd := ac2 / dc
  let ellip := ac2 / dc
  { r with dc := dc, ac := ac2, cd := cd, ellip := ellip }

/-- `np.where(avg_spec[0] == wl)[0]` followed by an update of `index[0]` only:
update the first row whose wavelength matches, leave the rest (and a
no-match spectrum) unchanged. -/
def update_first_match (f : AvgRow → AvgRow) (wl : ℚ) : List AvgRow → List AvgRow
  | [] => []
  | r :: rs => if r.wl = wl then f r :: rs else r :: update_first_match f wl rs

/-- `controller_new.py`, `Controller.add_data_to_avg_spec` (lines 974–998).
`avg_spec` is kept as a list of wavelength columns; repetition 0 appends a new
column `(WL, DC, AC, CD, gabs, ellips)` from the data-vector indices, later
repetitions update the first column with an exactly equal wavelength. -/
def add_data_to_avg_spec (sample_c path_l : ℚ) (avg_spec : List AvgRow)
    (d : DataPoint) (curr_rep : ℕ) : List AvgRow :=
  if curr_rep = 0 then
    avg_spec ++ [⟨d.wl, d.dc, d.ac, d.cd, d.gabs, d.ellip⟩]
  else
    update_first_match (update_avg_row sample_c path_l d curr_rep) d.wl avg_spec

/-- The accumulator as driven by `record_spec`: one `add_data_to_avg_spec`
call per repetition (`curr_rep = 0, 1, …`) for the data points acquired at one
wavelength. -/
def run_avg_spec_from (sample_c path_l : ℚ) (avg_spec : List AvgRow) (curr_rep : ℕ) :
    List DataPoint → List AvgRow
  | [] => avg_spec
  | d :: ds =>
    run_avg_spec_from sample_c path_l
      (add_data_to_avg_spec sample_c path_l avg_spec d curr_rep) (curr_rep + 1) ds

def run_avg_spec (sample_c path_l : ℚ) (points : List DataPoint) : List AvgRow :=
  run_avg_spec_from sample_c path_l [] 0 points

/-- The per-wavelength retry loop of `record_spec` (`controller_new.py` lines
827–841; `controller.py` lines 577–587): up to five `read_data` calls until one
reports success.  `reads k` is the `success` field returned by the `k`-th call
at this wavelength; the abort flag, polled by the loop guard and before the
`success` assignment, is threaded as the constant `stop` (the claim's
scenarios never raise it externally).  Returns the final `(j, success)`. -/
def read_retry_loop (reads : ℕ → Bool) (stop : Bool) (j : ℕ) (success : Bool) : ℕ × Bool :=
  if j < 5 ∧ success = false ∧ stop = false then
    read_retry_loop reads stop (j + 1) (if stop then success else reads j)
  else (j, success)
termination_by 5 - j

/-- The retry loop as entered by `record_spec`: `j = 0`, `success = False`. -/
def record_spec_tries (reads : ℕ → Bool) (stop : Bool) : ℕ × Bool :=
  read_retry_loop reads stop 0 false

/-- `controller_new.py` lines 843–845: after the loop, `record_spec` sets the
abort flag itself (and reports the fatal condition) iff no read succeeded and
the flag is not already up. -/
def record_spec_self_abort (reads : ℕ → Bool) (stop : Bool) : Bool :=
  !(record_spec_tries reads stop).2 && !stop

end ControllerNew


/-- C8: `cal_get_new_phaseoffset` returns
`current_offset + (guarded (pos−90) + guarded (neg+90)) / n` over the number
`n` of non-skipped sides; `pos_theta = 95`, `neg_theta = −85`,
`current_offset = 150` yields 155 both with and without the positive side
skipped; with both sides skipped the result stays NaN (`none`) and
`cal_apply_new` writes nothing to the lock-in. -/
theorem c8_cal_get_new_phaseoffset :
    (∀ (po pt nt : ℚ) (sp sn : Bool), ¬(sp = true ∧ sn = true) →
      ControllerNew.cal_get_new_phaseoffset po pt nt sp sn
        = some (po + ((if sp then 0 else pt - 90) + (if sn then 0 else nt + 90))
            / ((if sp then 0 else 1) + (if sn then 0 else 1))))
    ∧ ControllerNew.cal_get_new_phaseoffset 150 95 (-85) false false = some 155
    ∧ ControllerNew.cal_get_new_phaseoffset 150 95 (-85) true false = some 155
    ∧ (∀ po pt nt : ℚ, ControllerNew.cal_get_new_phaseoffset po pt nt true true = none
        ∧ ControllerNew.cal_apply_new
            (ControllerNew.cal_get_new_phaseoffset po pt nt true true) = none) := by
  refine ⟨?_, by norm_num [ControllerNew.cal_get_new_phaseoffset],
    by norm_num [ControllerNew.cal_get_new_phaseoffset], ?_⟩
  · intro po pt nt sp sn h
    cases sp <;> cases sn <;>
      simp_all [ControllerNew.cal_get_new_phaseoffset]
  · intro po pt nt
    constructor <;>
      simp [ControllerNew.cal_get_new_phaseoffset, ControllerNew.cal_apply_new]

/-- Witness for C8: the formula instantiated at `pos_theta = 95`,
`neg_theta = −85`, `current_offset = 150` with no side skipped. -/
theorem c8_cal_get_new_phaseoffset_witness :
    ¬((false = true) ∧ (false = true))
    ∧ ControllerNew.cal_get_new_phaseoffset 150 95 (-85) false false
      = some (150 + ((if false then 0 else (95 : ℚ) - 90) + (if false then 0 else -85 + 90))
          / ((if false then 0 else 1) + (if false then 0 else 1))) :=
  ⟨by decide, c8_cal_get_new_phaseoffset.1 150 95 (-85) false false (by decide)⟩

/-- C4 (code bug): with `sample_c = path_l = 1`, feeding the same point
`(WL 500, DC 2, AC 1, CD 9, gabs 9, ellips 9)` in repetitions 0 and 1 leaves
`avg_spec`'s DC row at the mean 2, but its AC row at `1/2` — the update
overwrites the freshly averaged AC row with `(AC_mean/DC_mean)/(c·l)` — while
the arithmetic mean of the AC values is `(1+1)/2 = 1 ≠ 1/2`; the gabs row
keeps its repetition-0 placeholder 9 instead of being recomputed.  A point
whose wavelength has no repetition-0 row leaves `avg_spec` unchanged. -/
theorem c4_add_data_to_avg_spec_bug :
    ControllerNew.run_avg_spec 1 1 [⟨500, 2, 1, 9, 9, 9⟩, ⟨500, 2, 1, 9, 9, 9⟩]
        = [⟨500, 2, 1/2, 1/4, 9, 1/4⟩]
    ∧ ((1 : ℚ) + 1) / 2 = 1
    ∧ (1/2 : ℚ) ≠ 1
    ∧ ControllerNew.add_data_to_avg_spec 1 1 [⟨500, 2, 1, 9, 9, 9⟩] ⟨600, 3, 3, 3, 3, 3⟩ 1
        = [⟨500, 2, 1, 9, 9, 9⟩] := by
  refine ⟨?_, by norm_num, by norm_num, ?_⟩
  · simp [ControllerNew.run_avg_spec, ControllerNew.run_avg_spec_from,
      ControllerNew.add_data_to_avg_spec, ControllerNew.update_first_match,
      ControllerNew.update_avg_row]
    norm_num
  · norm_num [ControllerNew.add_data_to_avg_spec, ControllerNew.update_first_match]

/-- With every read failing (and the abort flag down), the retry loop reaches
`j = 5` with `success = False`. -/
theorem read_retry_loop_all_false (reads : ℕ → Bool) (h : ∀ k, reads k = false) :
    ∀ m j, j + m = 5 → ControllerNew.read_retry_loop reads false j false = (5, false) := by
  intro m
  induction m with
  | zero =>
    intro j hj
    have hj5 : j = 5 := by omega
    subst hj5
    rw [ControllerNew.read_retry_loop]
    simp
  | succ m ih =>
    intro j hj
    rw [ControllerNew.read_retry_loop]
    have hj5 : j < 5 := by omega
    simp [hj5, h j]
    exact ih (j + 1) (by omega)

/-- If read `k < 5` is the first success, the retry loop exits at `j = k + 1`
with `success = True`. -/
theorem read_retry_loop_first_true (reads : ℕ → Bool) (k : ℕ) (hk : k < 5)
    (hT : reads k = true) (hF : ∀ m, m < k → reads m = false) :
    ∀ m j, j + m = k → ControllerNew.read_retry_loop reads false j false = (k + 1, true) := by
  intro m
  induction m with
  | zero =>
    intro j hj
    have hj5 : j = k := by omega
    subst hj5
    rw [ControllerNew.read_retry_loop]
    simp [hk, hT]
    rw [ControllerNew.read_retry_loop]
    simp
  | succ m ih =>
    intro j hj
    rw [ControllerNew.read_retry_loop]
    have hj5 : j < 5 := by omega
    simp [hj5, hF j (by omega)]
    exact ih (j + 1) (by omega)

/-- C3: with the abort flag never raised externally, if every `read_data` call
reports `success = False`, `record_spec` makes exactly 5 attempts at the
wavelength and then sets the abort flag itself (the fatal
could-not-collect-data-after-5-tries condition); if the `k`-th attempt
(`k < 5`, 0-based) is the first success, exactly `k + 1` attempts are made and
no self-abort occurs. -/
theorem c3_record_spec_retry_cap :
    (∀ reads : ℕ → Bool, (∀ k, reads k = false) →
      ControllerNew.record_spec_tries reads false = (5, false)
        ∧ ControllerNew.record_spec_self_abort reads false = true)
    ∧ (∀ (reads : ℕ → Bool) (k : ℕ), k < 5 → reads k = true →
        (∀ m, m < k → reads m = false) →
        ControllerNew.record_spec_tries reads false = (k + 1, true)
          ∧ ControllerNew.record_spec_self_abort reads false = false) := by
  constructor
  · intro reads h
    have h5 : ControllerNew.record_spec_tries reads false = (5, false) :=
      read_retry_loop_all_false reads h 5 0 rfl
    refine ⟨h5, ?_⟩
    simp [ControllerNew.record_spec_self_abort, h5]
  · intro reads k hk hT hF
    have h5 : ControllerNew.record_spec_tries reads false = (k + 1, true) :=
      read_retry_loop_first_true reads k hk hT hF k 0 (by omega)
    refine ⟨h5, ?_⟩
    simp [ControllerNew.record_spec_self_abort, h5]

/-- Witness for C3: the all-fail source makes 5 attempts and self-aborts; an
immediately succeeding source makes 1 attempt and does not. -/
theorem c3_record_spec_retry_cap_witness :
    ((∀ k : ℕ, (fun _ : ℕ => false) k = false)
      ∧ ControllerNew.record_spec_tries (fun _ => false) false = (5, false)
      ∧ ControllerNew.record_spec_self_abort (fun _ => false) false = true)
    ∧ (0 < 5
      ∧ ControllerNew.record_spec_tries (fun _ => true) false = (0 + 1, true)
      ∧ ControllerNew.record_spec_self_abort (fun _ => true) false = false) :=
  ⟨⟨fun _ => rfl, (c3_record_spec_retry_cap.1 (fun _ => false) (fun _ => rfl)).1,
      (c3_record_spec_retry_cap.1 (fun _ => false) (fun _ => rfl)).2⟩,
    ⟨by decide,
      (c3_record_spec_retry_cap.2 (fun _ => true) 0 (by decide) rfl
        (fun m hm => absurd hm (Nat.not_lt_zero m))).1,
      (c3_record_spec_retry_cap.2 (fun _ => true) 0 (by decide) rfl
        (fun m hm => absurd hm (Nat.not_lt_zero m))).2⟩⟩

namespace ControllerNew

/-- The wavelength loop of `record_spec` (`controller_new.py` lines 817–821;
`controller.py` lines 568–572) for a non-aborted sweep: `curr_nm` starts at
`start_nm - inc` and the loop body `curr_nm = curr_nm + inc` runs while
`(direction > 0 and curr_nm < end_nm) or (direction < 0 and curr_nm > end_nm)`;
the list collects the values of `curr_nm` visited by `move_nm`.
`direction = np.sign(inc)` never changes, so `direction > 0 ↔ 0 < inc` and
`direction < 0 ↔ inc < 0`. -/
def sweep_loop (end_nm inc curr_nm : ℚ) : List ℚ :=
  if h : (0 < inc ∧ curr_nm < end_nm) ∨ (inc < 0 ∧ end_nm < curr_nm) then
    (curr_nm + inc) :: sweep_loop end_nm inc (curr_nm + inc)
  else []
termination_by ⌈(end_nm - curr_nm) / inc⌉.toNat
decreasing_by
  have hinc : inc ≠ 0 := by rcases h with ⟨h1, _⟩ | ⟨h1, _⟩ <;> [exact ne_of_gt h1; exact ne_of_lt h1]
  have hx : 0 < (end_nm - curr_nm) / inc := by
    rw [div_pos_iff]
    rcases h with ⟨h1, h2⟩ | ⟨h1, h2⟩
    · exact Or.inl ⟨by linarith, h1⟩
    · exact Or.inr ⟨by linarith, h1⟩
  have hstep : (end_nm - (curr_nm + inc)) / inc = (end_nm - curr_nm) / inc - 1 := by
    field_simp
    ring
  have hpos : 0 < ⌈(end_nm - curr_nm) / inc⌉ := Int.ceil_pos.mpr hx
  rw [hstep, Int.ceil_sub_one]
  omega

/-- `record_spec` initializes `inc = -step if start_nm > end_nm else step` and
`curr_nm = start_nm - inc` before entering the wavelength loop
(`controller_new.py` lines 779–782 and 817). -/
def record_spec_wavelengths (start_nm end_nm step : ℚ) : List ℚ :=
  let inc := if start_nm > end_nm then -step else step
  sweep_loop end_nm inc (start_nm - inc)

end ControllerNew

/-- Closed form of the wavelength loop: from `curr`, the loop visits
`curr + (k+1)·inc` for `k < ⌈(end_nm − curr)/inc⌉`. -/
theorem sweep_loop_closed_form (end_nm inc : ℚ) (hinc : inc ≠ 0) :
    ∀ (n : ℕ) (curr : ℚ), ⌈(end_nm - curr) / inc⌉.toNat = n →
      ControllerNew.sweep_loop end_nm inc curr
        = (List.range n).map (fun k : ℕ => curr + ((k : ℚ) + 1) * inc) := by
  intro n
  induction n with
  | zero =>
    intro curr hn
    rw [ControllerNew.sweep_loop]
    split
    case isTrue h =>
      exfalso
      have hx : 0 < (end_nm - curr) / inc := by
        rw [div_pos_iff]
        rcases h with ⟨h1, h2⟩ | ⟨h1, h2⟩
        · exact Or.inl ⟨by linarith, h1⟩
        · exact Or.inr ⟨by linarith, h1⟩
      have hpos : 0 < ⌈(end_nm - curr) / inc⌉ := Int.ceil_pos.mpr hx
      omega
    case isFalse h => simp
  | succ n ih =>
    intro curr hn
    rw [ControllerNew.sweep_loop]
    split
    case isTrue h =>
      have hx : 0 < (end_nm - curr) / inc := by
        rw [div_pos_iff]
        rcases h with ⟨h1, h2⟩ | ⟨h1, h2⟩
        · exact Or.inl ⟨by linarith, h1⟩
        · exact Or.inr ⟨by linarith, h1⟩
      have hpos : 0 < ⌈(end_nm - curr) / inc⌉ := Int.ceil_pos.mpr hx
      have hstep : (end_nm - (curr + inc)) / inc = (end_nm - curr) / inc - 1 := by
        field_simp
        ring
      have hm : ⌈(end_nm - (curr + inc)) / inc⌉.toNat = n := by
        rw [hstep, Int.ceil_sub_one]
        omega
      rw [ih (curr + inc) hm, List.range_succ_eq_map, List.map_cons, List.map_map]
      refine List.cons_eq_cons.mpr ⟨by push_cast; ring, ?_⟩
      refine List.map_congr_left fun k _ => ?_
      simp only [Function.comp]
      push_cast
      ring
    case isFalse h =>
      exfalso
      have hx : 0 < (end_nm - curr) / inc := Int.ceil_pos.mp (by omega)
      rcases div_pos_iff.mp hx with ⟨h1, h2⟩ | ⟨h1, h2⟩
      · exact h (Or.inl ⟨h2, by linarith⟩)
      · exact h (Or.inr ⟨h2, by linarith⟩)

/-- A chain property holds along an affinely generated wavelength list as soon
as it holds between consecutive generator values. -/
theorem chain'_map_range {R : ℚ → ℚ → Prop} (f : ℕ → ℚ) (N : ℕ)
    (h : ∀ m : ℕ, R (f m) (f (m + 1))) : List.Chain' R ((List.range N).map f) := by
  rw [List.chain'_map]
  cases N with
  | zero => simp
  | succ n => exact (List.chain'_range_succ _ n).mpr fun m _ => h m

/-- C9: for a sweep with `step > 0` and `start ≠ end`, the wavelengths visited
by the inner loop of `record_spec` are `start + k·inc` for
`k < ⌈|end − start|/step⌉ + 1`, where `inc = ±step` with the sign of
`end − start`; hence the sequence starts at `start`, changes by the fixed
increment `inc`, is strictly monotonic in that direction, and its length is
`⌈|end − start|/step⌉ + 1` (the claimed `ceil` count plus the boundary
point). -/
theorem c9_record_spec_wavelengths (start_nm end_nm step : ℚ)
    (hstep : 0 < step) (hne : start_nm ≠ end_nm) :
    ControllerNew.record_spec_wavelengths start_nm end_nm step
        = (List.range (⌈|end_nm - start_nm| / step⌉₊ + 1)).map
            (fun k : ℕ => start_nm + (k : ℚ) * (if start_nm > end_nm then -step else step))
    ∧ (ControllerNew.record_spec_wavelengths start_nm end_nm step).length
        = ⌈|end_nm - start_nm| / step⌉₊ + 1
    ∧ (ControllerNew.record_spec_wavelengths start_nm end_nm step).head? = some start_nm
    ∧ List.Chain' (fun a b => b - a = (if start_nm > end_nm then -step else step))
        (ControllerNew.record_spec_wavelengths start_nm end_nm step)
    ∧ (start_nm < end_nm →
        List.Chain' (· < ·) (ControllerNew.record_spec_wavelengths start_nm end_nm step))
    ∧ (end_nm < start_nm →
        List.Chain' (fun a b => b < a)
          (ControllerNew.record_spec_wavelengths start_nm end_nm step)) := by
  set inc := if start_nm > end_nm then -step else step with hinc_def
  have hinc : inc ≠ 0 := by
    rw [hinc_def]
    split
    · exact neg_ne_zero.mpr (ne_of_gt hstep)
    · exact ne_of_gt hstep
  have habs : (end_nm - (start_nm - inc)) / inc = |end_nm - start_nm| / step + 1 := by
    rcases lt_or_gt_of_ne hne with hlt | hgt
    · rw [hinc_def, if_neg (not_lt.mpr hlt.le),
        abs_of_pos (by linarith : (0 : ℚ) < end_nm - start_nm)]
      field_simp
      ring
    · rw [hinc_def, if_pos hgt, abs_of_neg (by linarith : end_nm - start_nm < (0 : ℚ))]
      rw [div_add_one (ne_of_gt hstep), div_eq_div_iff (neg_ne_zero.mpr (ne_of_gt hstep))
        (ne_of_gt hstep)]
      ring
  have hceil0 : 0 ≤ ⌈|end_nm - start_nm| / step⌉ :=
    Int.ceil_nonneg (div_nonneg (abs_nonneg _) hstep.le)
  have hN : ⌈(end_nm - (start_nm - inc)) / inc⌉.toNat = ⌈|end_nm - start_nm| / step⌉₊ + 1 := by
    rw [habs, Int.ceil_add_one, ← Int.ceil_toNat]
    omega
  have hclosed := sweep_loop_closed_form end_nm inc hinc _ (start_nm - inc) rfl
  have hmain : ControllerNew.record_spec_wavelengths start_nm end_nm step
      = (List.range (⌈|end_nm - start_nm| / step⌉₊ + 1)).map
          (fun k : ℕ => start_nm + (k : ℚ) * inc) := by
    have hdef : ControllerNew.record_spec_wavelengths start_nm end_nm step
        = ControllerNew.sweep_loop end_nm inc (start_nm - inc) := by
      rw [ControllerNew.record_spec_wavelengths, hinc_def]
    rw [hdef, hclosed, hN]
    refine List.map_congr_left fun k _ => ?_
    ring
  refine ⟨hmain, by rw [hmain]; simp, ?_, ?_, ?_, ?_⟩
  · rw [hmain, List.range_succ_eq_map]
    simp
  · rw [hmain]
    refine chain'_map_range _ _ fun m => ?_
    push_cast
    ring
  · intro hlt
    have hpos : 0 < inc := by rw [hinc_def, if_neg (not_lt.mpr hlt.le)]; exact hstep
    rw [hmain]
    refine chain'_map_range _ _ fun m => ?_
    have he : ((m : ℚ) + 1) * inc = (m : ℚ) * inc + inc := by ring
    push_cast
    rw [he]
    linarith
  · intro hgt
    have hneg : inc < 0 := by rw [hinc_def, if_pos hgt]; linarith
    rw [hmain]
    refine chain'_map_range _ _ fun m => ?_
    have he : ((m : ℚ) + 1) * inc = (m : ℚ) * inc + inc := by ring
    push_cast
    rw [he]
    linarith

/-- Witness for C9: the sweep `start = 0`, `end = 1`, `step = 1`. -/
theorem c9_record_spec_wavelengths_witness :
    (0 : ℚ) < 1 ∧ ((0 : ℚ) ≠ 1)
    ∧ (ControllerNew.record_spec_wavelengths 0 1 1).length = ⌈|(1 : ℚ) - 0| / 1⌉₊ + 1
    ∧ (ControllerNew.record_spec_wavelengths 0 1 1).head? = some 0 :=
  ⟨zero_lt_one, zero_ne_one,
    (c9_record_spec_wavelengths 0 1 1 zero_lt_one zero_ne_one).2.1,
    (c9_record_spec_wavelengths 0 1 1 zero_lt_one zero_ne_one).2.2.1⟩

namespace ControllerNew

/-- `Controller.shutdown_threshold = 2.95` V (`controller_new.py` line 35). -/
def shutdown_threshold : ℚ := 2.95

/-- `Controller.max_volt_hist_length = 75` (`controller_new.py` line 57);
`max_volt_history = collections.deque(maxlen=max_volt_hist_length)`. -/
def max_volt_hist_length : ℕ := 75

/-- `math.isclose(a, b, abs_tol=0.000000001)` with the default
`rel_tol = 1e-09`: `|a − b| ≤ max(rel_tol · max(|a|, |b|), abs_tol)`. -/
def isclose (a b : ℚ) : Bool :=
  decide (|a - b| ≤ max (1 / 1000000000 * max |a| |b|) (1 / 1000000000))

/-- Python negative indexing `history[-i]` for a nonempty suffix. -/
def nth_last (l : List ℚ) (i : ℕ) : ℚ := l.getD (l.length - i) 0

/-- `collections.deque(maxlen=n).append`: drop the oldest entries once the
length exceeds `maxlen`. -/
def deque_append (maxlen : ℕ) (l : List ℚ) (v : ℚ) : List ℚ :=
  let l2 := l ++ [v]
  if maxlen < l2.length then l2.drop (l2.length - maxlen) else l2

/-- The externally visible effects of one poll iteration of
`monit_osc_loop`. -/
structure OscOutcome where
  max_volt_history : List ℚ
  auto_range_triggered : Bool
  pmt_rescued : Bool
  measurement_aborted : Bool

/-- One poll iteration of `Controller.monit_osc_loop` (`controller_new.py`
lines 1382–1418).  `scope_max = none` models a NaN `read_scope` sample (it is
skipped without touching the history and without checks).  Otherwise the
sample is appended to the bounded history and, only when the history has
reached length 5, the two hazard checks run: range-limit over `i ∈ range(2,6)`
(`isclose(history[-i], max_volt)` and `history[-i] ≥ 0.95·signal_range`), and
PMT-overvoltage over `i ∈ range(1,4)` (`history[-i] ≥ shutdown_threshold`).
`auto_range_triggered` is `set_auto_range`, `pmt_rescued` is `rescue_pmt`
(which sets the PMT control voltage to 0), and `measurement_aborted` is
`abort_measurement`, called for either hazard only while
`acquisition_running`. -/
def monit_osc_cycle (signal_range : ℚ) (acquisition_running : Bool)
    (history : List ℚ) (scope_max : Option ℚ) : OscOutcome :=
  match scope_max with
  | none => ⟨history, false, false, false⟩
  | some max_volt =>
    let h2 := deque_append max_volt_hist_length history max_volt
    if 5 ≤ h2.length then
      let range_limit_reached := (List.range' 2 4).all fun i =>
        isclose (nth_last h2 i) max_volt
          && decide (0.95 * signal_range ≤ nth_last h2 i)
      let pmt_limit_reached := (List.range' 1 3).all fun i =>
        decide (shutdown_threshold ≤ nth_last h2 i)
      ⟨h2, range_limit_reached, pmt_limit_reached,
        (range_limit_reached || pmt_limit_reached) && acquisition_running⟩
    else ⟨h2, false, false, false⟩

end ControllerNew

/-- Counterexample to C2: after the third non-NaN sample 3 V (history
`[3, 3]`, shutdown threshold 2.95 V), the history holds 3 samples, all three
are ≥ the threshold, yet the monitor neither zeroes the PMT voltage nor
aborts the running sweep on that cycle — both hazard checks are gated behind
`len(max_volt_history) >= 5`, not the claimed window of 3. -/
theorem c2_pmt_window_counterexample :
    (ControllerNew.monit_osc_cycle 3 true [3, 3] (some 3)).max_volt_history = [3, 3, 3]
    ∧ ((ControllerNew.monit_osc_cycle 3 true [3, 3] (some 3)).max_volt_history).length = 3
    ∧ (∀ x ∈ (ControllerNew.monit_osc_cycle 3 true [3, 3] (some 3)).max_volt_history,
        ControllerNew.shutdown_threshold ≤ x)
    ∧ (ControllerNew.monit_osc_cycle 3 true [3, 3] (some 3)).pmt_rescued = false
    ∧ (ControllerNew.monit_osc_cycle 3 true [3, 3] (some 3)).measurement_aborted = false := by
  refine ⟨?_, ?_, ?_, ?_, ?_⟩ <;>
    simp [ControllerNew.monit_osc_cycle, ControllerNew.deque_append,
      ControllerNew.max_volt_hist_length, ControllerNew.shutdown_threshold] <;>
    norm_num

/-- C2 amended: the hazard checks are gated behind a history length of 5 (not
3).  Once the post-append history has length ≥ 5, if the last 3 samples are
all ≥ the 2.95 V shutdown threshold, the monitor zeroes the PMT control
voltage on that cycle and, if a sweep is active, aborts it; if the
third-from-last sample is below the threshold (only the last 2 reach it), no
PMT event is triggered; and a NaN sample is skipped without entering the
history. -/
theorem c2_pmt_trigger_amended (signal_range : ℚ) (acq : Bool) (history : List ℚ) (v : ℚ) :
    (5 ≤ (ControllerNew.deque_append ControllerNew.max_volt_hist_length history v).length →
      (∀ i ∈ [1, 2, 3], ControllerNew.shutdown_threshold ≤
        ControllerNew.nth_last
          (ControllerNew.deque_append ControllerNew.max_volt_hist_length history v) i) →
      (ControllerNew.monit_osc_cycle signal_range acq history (some v)).pmt_rescued = true
        ∧ (acq = true →
          (ControllerNew.monit_osc_cycle signal_range acq history (some v)).measurement_aborted
            = true))
    ∧ (ControllerNew.nth_last
          (ControllerNew.deque_append ControllerNew.max_volt_hist_length history v) 3
            < ControllerNew.shutdown_threshold →
        (ControllerNew.monit_osc_cycle signal_range acq history (some v)).pmt_rescued = false)
    ∧ ControllerNew.monit_osc_cycle signal_range acq history none
        = ⟨history, false, false, false⟩ := by
  refine ⟨?_, ?_, rfl⟩
  · intro hlen hthr
    have h1 := hthr 1 (by simp)
    have h2 := hthr 2 (by simp)
    have h3 := hthr 3 (by simp)
    rw [ControllerNew.monit_osc_cycle]
    rw [if_pos hlen]
    have hall : ((List.range' 1 3).all fun i => decide (ControllerNew.shutdown_threshold ≤
        ControllerNew.nth_last
          (ControllerNew.deque_append ControllerNew.max_volt_hist_length history v) i))
        = true := by
      simp only [show List.range' 1 3 = [1, 2, 3] from rfl, List.all_cons, List.all_nil,
        Bool.and_true, Bool.and_eq_true, decide_eq_true_eq]
      exact ⟨h1, h2, h3⟩
    refine ⟨hall, fun hacq => ?_⟩
    simp [hall, hacq]
  · intro hlt
    rw [ControllerNew.monit_osc_cycle]
    split
    · have hd : decide (ControllerNew.shutdown_threshold ≤
          ControllerNew.nth_last
            (ControllerNew.deque_append ControllerNew.max_volt_hist_length history v) 3)
          = false := decide_eq_false (not_le.mpr hlt)
      simp only [show List.range' 1 3 = [1, 2, 3] from rfl, List.all_cons, List.all_nil,
        Bool.and_true, hd, Bool.and_false]
    · rfl

/-- Witness for C2's amended theorem: signal range 3 V, a running sweep,
history `[3, 3, 3, 3]` and a fifth 3 V sample. -/
theorem c2_pmt_trigger_amended_witness :
    5 ≤ (ControllerNew.deque_append ControllerNew.max_volt_hist_length [3, 3, 3, 3] 3).length
    ∧ (∀ i ∈ [1, 2, 3], ControllerNew.shutdown_threshold ≤
        ControllerNew.nth_last
          (ControllerNew.deque_append ControllerNew.max_volt_hist_length [3, 3, 3, 3] 3) i)
    ∧ (ControllerNew.monit_osc_cycle 3 true [3, 3, 3, 3] (some 3)).pmt_rescued = true
    ∧ (ControllerNew.monit_osc_cycle 3 true [3, 3, 3, 3] (some 3)).measurement_aborted
        = true := by
  have h5 : 5 ≤ (ControllerNew.deque_append ControllerNew.max_volt_hist_length
      [3, 3, 3, 3] 3).length := by
    simp [ControllerNew.deque_append, ControllerNew.max_volt_hist_length]
  have hthr : ∀ i ∈ [1, 2, 3], ControllerNew.shutdown_threshold ≤
      ControllerNew.nth_last
        (ControllerNew.deque_append ControllerNew.max_volt_hist_length [3, 3, 3, 3] 3) i := by
    intro i hi
    fin_cases hi <;>
      norm_num [ControllerNew.nth_last, ControllerNew.deque_append,
        ControllerNew.max_volt_hist_length, ControllerNew.shutdown_threshold]
  exact ⟨h5, hthr, ((c2_pmt_trigger_amended 3 true [3, 3, 3, 3] 3).1 h5 hthr).1,
    ((c2_pmt_trigger_amended 3 true [3, 3, 3, 3] 3).1 h5 hthr).2 rfl⟩

namespace ControllerNew

/-- Character codes of the illegal filename characters of
`start_spec.check_illegal_chars`:
`# @ $ % ^ & * { } : ; " | < > / ? \ ` ~ '` (codes below).  Filenames are
modelled as lists of character codes. -/
def illegal_char_codes : List ℕ :=
  [35, 64, 36, 37, 94, 38, 42, 123, 125, 58, 59, 34, 124, 60, 62, 47, 63, 92, 96, 126, 39]

/-- `check_illegal_chars` of `start_spec`. -/
def check_illegal_chars (s : List ℕ) : Bool := s.any (illegal_char_codes.contains ·)

/-- The GUI inputs read by `start_spec`'s validation (`controller_new.py`
lines 686–706): the wavelength parameters and the five file-name fields.
`base_blank` is read from the same `edt_dc_blank` widget as `dc_blank`, so it
is not a separate field here. -/
structure SweepRequest where
  start_nm : ℚ
  end_nm : ℚ
  step : ℚ
  dwell : ℚ
  reps : ℕ
  filename : List ℕ
  ac_blank : List ℕ
  dc_blank : List ℕ
  det_corr : List ℕ

/-- `filename_exists_or_empty` of `start_spec`: an empty name passes,
otherwise `.\data\<name>.csv` must exist; the file system is abstracted by
the predicate `file_has_csv` on names. -/
def filename_exists_or_empty (file_has_csv : List ℕ → Bool) (name : List ℕ) : Bool :=
  if name = [] then true else file_has_csv name

/-- `controller_new.py`, `Controller.start_spec` (lines 670–726): returns
whether validation passes, i.e. whether the acquisition thread running
`record_spec` is started.  The thread starts iff the filename contains no
illegal character and `error` is false, where `error = not ac_blank_exists or
not dc_blank_exists or not det_corr_exists or filename_exists or not
base_blank_exists`, with `base_blank = dc_blank` and the output filename
checked with suffix `'_1'` (codes `[95, 49]`) when `reps != 1`.  No other
request field — in particular neither `start_nm` nor `end_nm` — is examined. -/
def start_spec_starts_thread (file_has_csv : List ℕ → Bool) (req : SweepRequest) : Bool :=
  let ac_blank_exists := filename_exists_or_empty file_has_csv req.ac_blank
  let dc_blank_exists := filename_exists_or_empty file_has_csv req.dc_blank
  let base_blank_exists := filename_exists_or_empty file_has_csv req.dc_blank
  let det_corr_exists := filename_exists_or_empty file_has_csv req.det_corr
  let s : List ℕ := if req.reps = 1 then [] else [95, 49]
  let filename_exists := filename_exists_or_empty file_has_csv (req.filename ++ s)
  let error := !ac_blank_exists || !dc_blank_exists || !det_corr_exists || filename_exists
    || !base_blank_exists
  !check_illegal_chars req.filename && !error

end ControllerNew

/-- Counterexample to C6: the request `start = end = 500 nm`, `step = 1`,
legal fresh filename `"a"` (code 97) on an empty data directory passes
validation — the acquisition thread is started — and the wavelength loop then
visits the single wavelength 500 (the monochromators are moved), so the
degenerate request is neither rejected at validation nor kept from hardware
motion. -/
theorem c6_degenerate_request_not_rejected :
    ControllerNew.start_spec_starts_thread (fun _ => false)
        ⟨500, 500, 1, 1, 1, [97], [], [], []⟩ = true
    ∧ ControllerNew.record_spec_wavelengths 500 500 1 = [500] := by
  constructor
  · rfl
  · have h : ControllerNew.record_spec_wavelengths 500 500 1
        = ControllerNew.sweep_loop 500 1 (500 - 1) := by
      rw [ControllerNew.record_spec_wavelengths]
      norm_num
    rw [h, sweep_loop_closed_form 500 1 one_ne_zero 1 (500 - 1) (by norm_num),
      show List.range 1 = [0] from rfl]
    norm_num

/-- C6 amended: `start_spec`'s pre-sweep validation never examines the
wavelength parameters — a request with `start == end` passes or fails
validation exactly as any other wavelengths would — and when it passes, the
started sweep handles the degenerate case by visiting exactly one wavelength
(`start`). -/
theorem c6_validation_ignores_wavelengths :
    (∀ (file_has_csv : List ℕ → Bool) (req : ControllerNew.SweepRequest) (x y : ℚ),
      ControllerNew.start_spec_starts_thread file_has_csv req
        = ControllerNew.start_spec_starts_thread file_has_csv
            { req with start_nm := x, end_nm := y })
    ∧ (∀ s step : ℚ, 0 < step → ControllerNew.record_spec_wavelengths s s step = [s]) := by
  constructor
  · intro _ _ _ _
    rfl
  · intro s step hstep
    have h : ControllerNew.record_spec_wavelengths s s step
        = ControllerNew.sweep_loop s step (s - step) := by
      rw [ControllerNew.record_spec_wavelengths]
      simp
    have hN : ⌈(s - (s - step)) / step⌉.toNat = 1 := by
      rw [show s - (s - step) = step by ring, div_self (ne_of_gt hstep)]
      norm_num
    rw [h, sweep_loop_closed_form s step (ne_of_gt hstep) 1 (s - step) hN,
      show List.range 1 = [0] from rfl]
    simp only [List.map_cons, List.map_nil, Nat.cast_zero, List.cons.injEq, and_true]
    ring

/-- Witness for C6's amended theorem: the degenerate sweep `500 → 500` with
step 1 visits exactly `[500]`, and validation of the counterexample request is
unchanged when its wavelengths are replaced. -/
theorem c6_validation_ignores_wavelengths_witness :
    (0 : ℚ) < 1
    ∧ ControllerNew.record_spec_wavelengths 500 500 1 = [500]
    ∧ ControllerNew.start_spec_starts_thread (fun _ => false)
        ⟨500, 500, 1, 1, 1, [97], [], [], []⟩
      = ControllerNew.start_spec_starts_thread (fun _ => false)
        ⟨300, 600, 1, 1, 1, [97], [], [], []⟩ :=
  ⟨zero_lt_one, c6_validation_ignores_wavelengths.2 500 1 zero_lt_one,
    c6_validation_ignores_wavelengths.1 (fun _ => false)
      ⟨500, 500, 1, 1, 1, [97], [], [], []⟩ 300 600⟩

namespace ControllerNew

/-- `dfavg = dfspectra[0].copy(); dfavg.iloc[:, :] = 0.0`: the zero row. -/
noncomputable def zero_row : SpecRow := ⟨0, 0, 0, 0, 0, 0, 0, 0, 0, 0, 0, 0, 0, 0, 0, 0⟩

/-- One turn of the averaging loop of `df_average_spectra`
(`controller_new.py` lines 1018–1028): add `value/count` to each averaged
value column and `(std/count)²` to each averaged std column (the columns
`DC, AC, CD, m_ellip, ellip`; `I_L`, `I_R` and `gabs` are not in the loop). -/
noncomputable def df_average_step (count : ℕ) (dfavg dfi : SpecRow) : SpecRow :=
  { dfavg with
    DC := dfavg.DC + dfi.DC / count,
    DC_std := dfavg.DC_std + (dfi.DC_std / count) ^ 2,
    AC := dfavg.AC + dfi.AC / count,
    AC_std := dfavg.AC_std + (dfi.AC_std / count) ^ 2,
    CD := dfavg.CD + dfi.CD / count,
    CD_std := dfavg.CD_std + (dfi.CD_std / count) ^ 2,
    m_ellip := dfavg.m_ellip + dfi.m_ellip / count,
    m_ellip_std := dfavg.m_ellip_std + (dfi.m_ellip_std / count) ^ 2,
    ellip := dfavg.ellip + dfi.ellip / count,
    ellip_std := dfavg.ellip_std + (dfi.ellip_std / count) ^ 2 }

/-- `controller_new.py`, `Controller.df_average_spectra` (lines 1009–1037):
accumulate over the `count = len(dfspectra)` spectra, take the square root of
the five accumulated std columns, then recompute all derived channels with
`calc_cd`. -/
noncomputable def df_average_spectra (path_l sample_c : ℝ) (dfspectra : List SpecRow) :
    SpecRow :=
  let count := dfspectra.length
  let dfavg := dfspectra.foldl (df_average_step count) zero_row
  let dfavg2 := { dfavg with
    AC_std := Real.sqrt dfavg.AC_std,
    DC_std := Real.sqrt dfavg.DC_std,
    CD_std := Real.sqrt dfavg.CD_std,
    m_ellip_std := Real.sqrt dfavg.m_ellip_std,
    ellip_std := Real.sqrt dfavg.ellip_std }
  calc_cd path_l sample_c dfavg2

end ControllerNew

/-- Accumulation lemma for the averaging loop: any field that
`df_average_step` updates by `+ g dfi` folds to the sum of `g` over the
list. -/
theorem foldl_df_average_step (count : ℕ) (f : SpecRow → ℝ) (g : SpecRow → ℝ)
    (hstep : ∀ acc s, f (ControllerNew.df_average_step count acc s) = f acc + g s) :
    ∀ (l : List SpecRow) (z : SpecRow),
      f (l.foldl (ControllerNew.df_average_step count) z) = f z + (l.map g).sum := by
  intro l
  induction l with
  | nil => intro z; simp
  | cons a as ih =>
    intro z
    rw [List.foldl_cons, ih, hstep]
    rw [List.map_cons, List.sum_cons]
    ring

/-- `Σ (h s / c) = (Σ h s) / c` over a list. -/
theorem sum_map_div (l : List SpecRow) (h : SpecRow → ℝ) (c : ℝ) :
    (l.map fun s => h s / c).sum = (l.map h).sum / c := by
  induction l with
  | nil => simp
  | cons a as ih => simp [ih, add_div]

/-- C5: `df_average_spectra` over `n` per-repetition spectra yields, at each
wavelength, `DC` and `AC` equal to the arithmetic means `Σ value_i / n`,
`DC_std` and `AC_std` equal to the quadrature sums `sqrt(Σ (std_i/n)²)`, and
every derived channel (value and stddev) recomputed by `calc_cd` from these
averaged primary channels rather than taken from the per-repetition derived
columns. -/
theorem c5_df_average_spectra (path_l sample_c : ℝ) (specs : List SpecRow) :
    (ControllerNew.df_average_spectra path_l sample_c specs).DC
        = (specs.map SpecRow.DC).sum / (specs.length : ℝ)
    ∧ (ControllerNew.df_average_spectra path_l sample_c specs).AC
        = (specs.map SpecRow.AC).sum / (specs.length : ℝ)
    ∧ (ControllerNew.df_average_spectra path_l sample_c specs).DC_std
        = Real.sqrt ((specs.map fun s => (s.DC_std / (specs.length : ℝ)) ^ 2).sum)
    ∧ (ControllerNew.df_average_spectra path_l sample_c specs).AC_std
        = Real.sqrt ((specs.map fun s => (s.AC_std / (specs.length : ℝ)) ^ 2).sum)
    ∧ (ControllerNew.df_average_spectra path_l sample_c specs).CD
        = 3298.2 * (ControllerNew.df_average_spectra path_l sample_c specs).AC
          / ((ControllerNew.df_average_spectra path_l sample_c specs).DC * path_l * sample_c)
    ∧ (ControllerNew.df_average_spectra path_l sample_c specs).I_L
        = (ControllerNew.df_average_spectra path_l sample_c specs).AC
          + (ControllerNew.df_average_spectra path_l sample_c specs).DC
    ∧ (ControllerNew.df_average_spectra path_l sample_c specs).I_R
        = (ControllerNew.df_average_spectra path_l sample_c specs).DC
          - (ControllerNew.df_average_spectra path_l sample_c specs).AC
    ∧ (ControllerNew.df_average_spectra path_l sample_c specs).ellip
        = (ControllerNew.df_average_spectra path_l sample_c specs).AC
          / (ControllerNew.df_average_spectra path_l sample_c specs).DC
    ∧ (ControllerNew.df_average_spectra path_l sample_c specs).m_ellip
        = (ControllerNew.df_average_spectra path_l sample_c specs).ellip
          / (path_l * sample_c)
    ∧ (ControllerNew.df_average_spectra path_l sample_c specs).gabs
        = ((ControllerNew.df_average_spectra path_l sample_c specs).I_L
            - (ControllerNew.df_average_spectra path_l sample_c specs).I_R)
          / ((ControllerNew.df_average_spectra path_l sample_c specs).I_L
            + (ControllerNew.df_average_spectra path_l sample_c specs).I_R)
    ∧ (ControllerNew.df_average_spectra path_l sample_c specs).CD_std
        = Real.sqrt ((3298.2 / ((ControllerNew.df_average_spectra path_l sample_c specs).DC
              * path_l * sample_c)
              * (ControllerNew.df_average_spectra path_l sample_c specs).AC_std) ^ 2
            + (-3298.2 * (ControllerNew.df_average_spectra path_l sample_c specs).AC
              / ((ControllerNew.df_average_spectra path_l sample_c specs).DC ^ 2
                * path_l * sample_c)
              * (ControllerNew.df_average_spectra path_l sample_c specs).DC_std) ^ 2)
    ∧ (ControllerNew.df_average_spectra path_l sample_c specs).I_L_std
        = Real.sqrt ((ControllerNew.df_average_spectra path_l sample_c specs).AC_std ^ 2
            + (ControllerNew.df_average_spectra path_l sample_c specs).DC_std ^ 2)
    ∧ (ControllerNew.df_average_spectra path_l sample_c specs).I_R_std
        = (ControllerNew.df_average_spectra path_l sample_c specs).I_L_std
    ∧ (ControllerNew.df_average_spectra path_l sample_c specs).ellip_std
        = Real.sqrt ((1 / (ControllerNew.df_average_spectra path_l sample_c specs).DC
              * (ControllerNew.df_average_spectra path_l sample_c specs).AC_std) ^ 2
            + (-(ControllerNew.df_average_spectra path_l sample_c specs).AC
              / (ControllerNew.df_average_spectra path_l sample_c specs).DC ^ 2
              * (ControllerNew.df_average_spectra path_l sample_c specs).DC_std) ^ 2)
    ∧ (ControllerNew.df_average_spectra path_l sample_c specs).m_ellip_std
        = (ControllerNew.df_average_spectra path_l sample_c specs).ellip_std
          / (path_l * sample_c)
    ∧ (ControllerNew.df_average_spectra path_l sample_c specs).gabs_std
        = Real.sqrt ((2 * (ControllerNew.df_average_spectra path_l sample_c specs).I_R
              / ((ControllerNew.df_average_spectra path_l sample_c specs).I_L
                + (ControllerNew.df_average_spectra path_l sample_c specs).I_R) ^ 2
              * (ControllerNew.df_average_spectra path_l sample_c specs).I_L_std) ^ 2
            + (-2 * (ControllerNew.df_average_spectra path_l sample_c specs).I_L
              / ((ControllerNew.df_average_spectra path_l sample_c specs).I_L
                + (ControllerNew.df_average_spectra path_l sample_c specs).I_R) ^ 2
              * (ControllerNew.df_average_spectra path_l sample_c specs).I_R_std) ^ 2) := by
  have hDC : (ControllerNew.df_average_spectra path_l sample_c specs).DC
      = (specs.map SpecRow.DC).sum / (specs.length : ℝ) := by
    show (specs.foldl (ControllerNew.df_average_step specs.length)
      ControllerNew.zero_row).DC = _
    rw [foldl_df_average_step specs.length (fun r => r.DC)
      (fun s => s.DC / (specs.length : ℝ)) (fun _ _ => rfl) specs ControllerNew.zero_row,
      sum_map_div]
    show 0 + _ = _
    rw [zero_add]
  have hAC : (ControllerNew.df_average_spectra path_l sample_c specs).AC
      = (specs.map SpecRow.AC).sum / (specs.length : ℝ) := by
    show (specs.foldl (ControllerNew.df_average_step specs.length)
      ControllerNew.zero_row).AC = _
    rw [foldl_df_average_step specs.length (fun r => r.AC)
      (fun s => s.AC / (specs.length : ℝ)) (fun _ _ => rfl) specs ControllerNew.zero_row,
      sum_map_div]
    show 0 + _ = _
    rw [zero_add]
  have hDCs : (ControllerNew.df_average_spectra path_l sample_c specs).DC_std
      = Real.sqrt ((specs.map fun s => (s.DC_std / (specs.length : ℝ)) ^ 2).sum) := by
    show Real.sqrt ((specs.foldl (ControllerNew.df_average_step specs.length)
      ControllerNew.zero_row).DC_std) = _
    rw [foldl_df_average_step specs.length (fun r => r.DC_std)
      (fun s => (s.DC_std / (specs.length : ℝ)) ^ 2) (fun _ _ => rfl) specs
      ControllerNew.zero_row]
    show Real.sqrt (0 + _) = _
    rw [zero_add]
  have hACs : (ControllerNew.df_average_spectra path_l sample_c specs).AC_std
      = Real.sqrt ((specs.map fun s => (s.AC_std / (specs.length : ℝ)) ^ 2).sum) := by
    show Real.sqrt ((specs.foldl (ControllerNew.df_average_step specs.length)
      ControllerNew.zero_row).AC_std) = _
    rw [foldl_df_average_step specs.length (fun r => r.AC_std)
      (fun s => (s.AC_std / (specs.length : ℝ)) ^ 2) (fun _ _ => rfl) specs
      ControllerNew.zero_row]
    show Real.sqrt (0 + _) = _
    rw [zero_add]
  exact ⟨hDC, hAC, hDCs, hACs, rfl, rfl, rfl, rfl, rfl, rfl, rfl, rfl, rfl, rfl, rfl, rfl⟩

namespace MFLI

/-- The dict returned by `MFLI.read_data`: the `success` flag and the `data`
vector. -/
structure ReadResult where
  success : Bool
  data : List ℝ

/-- `get_sign(get_theta(x, y))`, i.e. `np.sign(np.arctan2(y, x))`:
`arctan2(y, x) ∈ (−π, π]` is positive iff `y > 0` or (`y = 0` and `x < 0`,
where it equals π), negative iff `y < 0`, and zero iff `y = 0 ≤ x`.  NaN
inputs are filtered out before this runs. -/
def sign_arctan2 (y x : ℚ) : ℚ :=
  if 0 < y then 1
  else if y < 0 then -1
  else if x < 0 then 1
  else 0

/-- `get_r`: amplitude `sqrt(x² + y²)` from the demodulator quadratures. -/
noncomputable def get_r (x y : ℚ) : ℝ := Real.sqrt ((x : ℝ) ^ 2 + (y : ℝ) ^ 2)

/-- `np.average` of a 1-d array. -/
noncomputable def np_average (l : List ℝ) : ℝ := l.sum / l.length

/-- `np.std` of a 1-d array (population standard deviation). -/
noncomputable def np_std (l : List ℝ) : ℝ :=
  Real.sqrt ((l.map fun x => (x - np_average l) ^ 2).sum / l.length)

/-- `get_nan_filter`/`apply_nan_filter` of `read_data`: keep exactly the
samples where neither the `x` nor the `y` entry is NaN (`none`). -/
def nan_filtered (samples : List (Option ℚ × Option ℚ)) : List (ℚ × ℚ) :=
  samples.filterMap fun p =>
    match p with
    | (some x, some y) => some (x, y)
    | _ => none

/-- The corrected AC values of `read_data`:
`ac = ac_raw · sign(ac_theta) · √2 · bessel_corr` per kept sample. -/
noncomputable def ac_samples (bessel_corr : ℝ) (samples : List (Option ℚ × Option ℚ)) :
    List ℝ :=
  (nan_filtered samples).map fun p =>
    get_r p.1 p.2 * ((sign_arctan2 p.2 p.1 : ℚ) : ℝ) * Real.sqrt 2 * bessel_corr

/-- The scalar `dc_raw = np.average(ac_raw)`. -/
noncomputable def dc_value (samples : List (Option ℚ × Option ℚ)) : ℝ :=
  np_average ((nan_filtered samples).map fun p => get_r p.1 p.2)

/-- `mfli.py`, `MFLI.read_data` (lines 262–442).  The hardware polling
(`poll_data`) is abstracted by its result: the time-aligned stream of
demodulator samples, one `(x, y)` pair per kept timestamp, with `none`
marking a NaN entry.  `no_data` is an empty stream; `all_nan` means the NaN
filter keeps nothing (so the third guard `ac.shape[0] > 0` repeats the second
one); on the success path the placeholder channels `CD, I_L, I_R, gabs,
m_ellip, ellip` are all set to the scalar `dc` (`np.average` of a scalar is
the scalar, `np.std` of a scalar is 0), so the returned vector lists
average/std pairs for 8 channels, 16 entries.  Every path with `error = True`
returns `success=False` with `np.zeros(4)`. -/
noncomputable def read_data (bessel_corr : ℝ) (samples : List (Option ℚ × Option ℚ)) :
    ReadResult :=
  if samples.length = 0 then
    ⟨false, List.replicate 4 0⟩
  else if (nan_filtered samples).length = 0 then
    ⟨false, List.replicate 4 0⟩
  else if 0 < (ac_samples bessel_corr samples).length then
    ⟨true, [dc_value samples, 0,
      np_average (ac_samples bessel_corr samples), np_std (ac_samples bessel_corr samples),
      dc_value samples, 0, dc_value samples, 0, dc_value samples, 0, dc_value samples, 0,
      dc_value samples, 0, dc_value samples, 0]⟩
  else
    ⟨false, List.replicate 4 0⟩

end MFLI

/-- C10: `read_data` always returns a `success`/`data` pair; on every failure
path (no data polled, or the NaN filter keeps nothing — the third guard
`ac.shape[0] > 0` cannot fail once the filter kept something) the data is the
4-element zero vector `np.zeros(4)`, while on success it is a 16-element list
of channel average/std pairs, so the shape differs between the two cases;
`success = False` exactly when the polled stream is empty or entirely
NaN-filtered away. -/
theorem c10_read_data_shape (bessel_corr : ℝ) (samples : List (Option ℚ × Option ℚ)) :
    (((MFLI.read_data bessel_corr samples).success = true
        ∧ ((MFLI.read_data bessel_corr samples).data).length = 16)
      ∨ ((MFLI.read_data bessel_corr samples).success = false
        ∧ (MFLI.read_data bessel_corr samples).data = List.replicate 4 0))
    ∧ ((MFLI.read_data bessel_corr samples).success = false ↔
        samples.length = 0 ∨ (MFLI.nan_filtered samples).length = 0) := by
  unfold MFLI.read_data
  split
  case isTrue h1 =>
    exact ⟨Or.inr ⟨rfl, rfl⟩, by simp [h1]⟩
  case isFalse h1 =>
    split
    case isTrue h2 =>
      exact ⟨Or.inr ⟨rfl, rfl⟩, by simp [h1, h2]⟩
    case isFalse h2 =>
      split
      case isTrue h3 =>
        exact ⟨Or.inl ⟨rfl, rfl⟩, by simp [h1, h2]⟩
      case isFalse h3 =>
        exfalso
        apply h3
        rw [MFLI.ac_samples, List.length_map]
        omega

namespace ControllerNew

/-- Device-facing actions emitted by `record_spec`, in program order:
`set_dwell_time` on the lock-in, `set_modulation_active`, `move_nm` (both
monochromators and, when the flag is set, the PEM), one `read_data` call,
and `set_PMT_voltage(0.0)`.  Log/plot/progress/file writes touch no device
and are not traced. -/
inductive SpecEvent where
  | set_dwell_time : SpecEvent
  | set_modulation : Bool → SpecEvent
  | move_nm : ℚ → Bool → SpecEvent
  | read_data : SpecEvent
  | set_pmt_zero : SpecEvent
  deriving DecidableEq

/-- The cooperative state threaded through `record_spec`: the abort flag
`stop_spec_trigger[0]`, the number of flag reads (polls) so far, the number
of `read_data` calls so far, and whether any poll has observed the flag
true. -/
structure MState where
  flag : Bool
  polls : ℕ
  reads : ℕ
  observed : Bool
  deriving DecidableEq

/-- One read of `stop_spec_trigger[0]`.  The external schedule `ext n` says
whether `abort_measurement` has raised the flag by the time of the `n`-th
poll; the flag latches (it is cleared only by the tail of `record_spec`).
Returns the observed value together with the updated state. -/
def poll_flag (ext : ℕ → Bool) (st : MState) : Bool × MState :=
  let f := st.flag || ext st.polls
  (f, ⟨f, st.polls + 1, st.reads, st.observed || f⟩)

/-- The retry loop of `record_spec` (lines 827–841) with the abort flag live:
the guard reads `(j < 5) and not success and not stop` (the flag only when
the first two conjuncts hold), the body performs one `read_data` (its result
taken from the stream `reads_src`), and `success` is updated only when the
flag poll after the read observes false. -/
def m_retry_loop (reads_src ext : ℕ → Bool) (j : ℕ) (success : Bool) (st : MState) :
    MState × Bool × List SpecEvent :=
  if j < 5 ∧ success = false then
    let p := poll_flag ext st
    if p.1 then (p.2, success, [])
    else
      let res := reads_src p.2.reads
      let st2 : MState := ⟨p.2.flag, p.2.polls, p.2.reads + 1, p.2.observed⟩
      let q := poll_flag ext st2
      let success2 := if q.1 then success else res
      let r := m_retry_loop reads_src ext (j + 1) success2 q.2
      (r.1, r.2.1, SpecEvent.read_data :: r.2.2)
  else (st, success, [])
termination_by 5 - j

/-- The wavelength loop of `record_spec` (lines 817–924) with the abort flag
live.  Per iteration: the guard reads the range condition and then the flag;
the body moves to `curr_nm + inc` (`move_nm`, whose settling
`interruptable_sleep(move_delay)` is one flag poll), sleeps for the low-pass
filter risetime (one poll), runs the retry loop, performs the
five-failures self-abort of lines 843–845 (`not success` then a flag poll,
then a direct `stop_spec_trigger[0] = True` assignment), and polls once more
at line 847 before appending the data point (no device action). -/
def m_wl_loop (end_nm inc : ℚ) (pem_move : Bool) (reads_src ext : ℕ → Bool)
    (curr_nm : ℚ) (st : MState) : MState × List SpecEvent :=
  if h : (0 < inc ∧ curr_nm < end_nm) ∨ (inc < 0 ∧ end_nm < curr_nm) then
    let p := poll_flag ext st
    if p.1 then (p.2, [])
    else
      let curr2 := curr_nm + inc
      let s1 := (poll_flag ext p.2).2
      let s2 := (poll_flag ext s1).2
      let r := m_retry_loop reads_src ext 0 false s2
      let st5 :=
        if r.2.1 = false then
          let q := poll_flag ext r.1
          if q.1 = false then (⟨true, q.2.polls, q.2.reads, q.2.observed⟩ : MState) else q.2
        else r.1
      let st6 := (poll_flag ext st5).2
      let rest := m_wl_loop end_nm inc pem_move reads_src ext curr2 st6
      (rest.1, SpecEvent.move_nm curr2 pem_move :: (r.2.2 ++ rest.2))
  else (st, [])
termination_by ⌈(end_nm - curr_nm) / inc⌉.toNat
decreasing_by
  have hinc : inc ≠ 0 := by
    rcases h with ⟨h1, _⟩ | ⟨h1, _⟩ <;> [exact ne_of_gt h1; exact ne_of_lt h1]
  have hx : 0 < (end_nm - curr_nm) / inc := by
    rw [div_pos_iff]
    rcases h with ⟨h1, h2⟩ | ⟨h1, h2⟩
    · exact Or.inl ⟨by linarith, h1⟩
    · exact Or.inr ⟨by linarith, h1⟩
  have hstep : (end_nm - (curr_nm + inc)) / inc = (end_nm - curr_nm) / inc - 1 := by
    field_simp
    ring
  have hpos : 0 < ⌈(end_nm - curr_nm) / inc⌉ := Int.ceil_pos.mpr hx
  rw [hstep, Int.ceil_sub_one]
  omega

/-- The repetition loop of `record_spec` (lines 795–945) with the abort flag
live: the guard reads `(i < reps) and not stop` (the flag only when
`i < reps`); the body runs the wavelength loop from `start_nm - inc`, then
performs the per-repetition check of line 926 (`if stop: set_PMT_voltage(0)`)
— one flag poll — and saves the spectrum (no device action). -/
def m_rep_loop (end_nm inc start_nm : ℚ) (pem_move : Bool) (reads_src ext : ℕ → Bool)
    (reps i : ℕ) (st : MState) : MState × List SpecEvent :=
  if i < reps then
    let p := poll_flag ext st
    if p.1 then (p.2, [])
    else
      let w := m_wl_loop end_nm inc pem_move reads_src ext (start_nm - inc) p.2
      let q := poll_flag ext w.1
      let ev_pmt : List SpecEvent := if q.1 then [SpecEvent.set_pmt_zero] else []
      let rest := m_rep_loop end_nm inc start_nm pem_move reads_src ext reps (i + 1) q.2
      (rest.1, w.2 ++ ev_pmt ++ rest.2)
  else (st, [])
termination_by reps - i

/-- The outcome of one `record_spec` run: the device-action trace, the final
value of the abort flag, and whether any poll observed the flag true. -/
structure RecordSpecRun where
  events : List SpecEvent
  final_flag : Bool
  observed_abort : Bool

/-- `controller_new.py`, `Controller.record_spec` (lines 746–965) as a trace
machine.  Modelling notes: each `interruptable_sleep` (dwell wait, move
settling, low-pass risetime) is one flag poll (its loop polls at 10 ms
granularity, so at least once for the positive delays used); `read_data`'s
internal polling is attributed to the read-result stream `reads_src`;
`np_to_pd`/`save_spec`/`apply_corr`/`df_average_spectra` touch no device.
After the loop, line 951 reads the flag only when `reps > 1`
(short-circuit); the tail (lines 959–965) always runs: modulation on,
`move_nm(start_nm, move_pem=True)` (`acquisition_running` is already false,
so its sleep does not poll), and `stop_spec_trigger[0] = False`. -/
def record_spec (start_nm end_nm step : ℚ) (reps : ℕ) (pem_off : Bool)
    (reads_src ext : ℕ → Bool) : RecordSpecRun :=
  let inc := if start_nm > end_nm then -step else step
  let st1 := (poll_flag ext (⟨false, 0, 0, false⟩ : MState)).2
  let r := m_rep_loop end_nm inc start_nm (!pem_off) reads_src ext reps 0 st1
  let st2 := if 1 < reps then (poll_flag ext r.1).2 else r.1
  { events := SpecEvent.set_dwell_time :: SpecEvent.set_modulation (!pem_off) ::
      (r.2 ++ [SpecEvent.set_modulation true, SpecEvent.move_nm start_nm true]),
    final_flag := false,
    observed_abort := st2.observed }

end ControllerNew

/-- With no external abort and every read failing, the retry loop leaves the
flag down and exits without success. -/
theorem m_retry_loop_all_fail (reads_src ext : ℕ → Bool)
    (hr : ∀ k, reads_src k = false) (hext : ∀ n, ext n = false) :
    ∀ (m j : ℕ) (st : ControllerNew.MState), j + m = 5 → st.flag = false →
      (ControllerNew.m_retry_loop reads_src ext j false st).1.flag = false
        ∧ (ControllerNew.m_retry_loop reads_src ext j false st).2.1 = false := by
  intro m
  induction m with
  | zero =>
    intro j st hj hf
    have hj5 : j = 5 := by omega
    subst hj5
    rw [ControllerNew.m_retry_loop]
    simp [hf]
  | succ m ih =>
    intro j st hj hf
    obtain ⟨f, po, re, ob⟩ := st
    simp only at hf
    subst hf
    rw [ControllerNew.m_retry_loop]
    have hj5 : j < 5 := by omega
    simp only [hj5, and_true, eq_self_iff_true, if_true, ControllerNew.poll_flag, hext,
      Bool.or_false, Bool.false_or, if_false, hr, ite_self, reduceIte, true_and]
    exact ih (j + 1) ⟨false, po + 2, re + 1, ob⟩ (by omega) rfl

/-- A wavelength-loop call entered with the flag already up exits at once:
no device action, flag still up. -/
theorem m_wl_loop_flag_up (end_nm inc : ℚ) (pem : Bool) (rs ext : ℕ → Bool)
    (curr : ℚ) (st : ControllerNew.MState) (hf : st.flag = true) :
    (ControllerNew.m_wl_loop end_nm inc pem rs ext curr st).1.flag = true
      ∧ (ControllerNew.m_wl_loop end_nm inc pem rs ext curr st).2 = [] := by
  obtain ⟨f, po, re, ob⟩ := st
  simp only at hf
  subst hf
  rw [ControllerNew.m_wl_loop]
  split
  · simp [ControllerNew.poll_flag]
  · simp

/-- With no external abort and every read failing, a wavelength-loop call
whose guard holds ends with the flag up (via the five-failures self-abort of
lines 843–845). -/
theorem m_wl_loop_self_abort (end_nm inc : ℚ) (pem : Bool) (rs ext : ℕ → Bool)
    (hr : ∀ k, rs k = false) (hext : ∀ n, ext n = false) (curr : ℚ)
    (st : ControllerNew.MState)
    (hguard : (0 < inc ∧ curr < end_nm) ∨ (inc < 0 ∧ end_nm < curr))
    (hf : st.flag = false) :
    (ControllerNew.m_wl_loop end_nm inc pem rs ext curr st).1.flag = true := by
  obtain ⟨f, po, re, ob⟩ := st
  simp only at hf
  subst hf
  rw [ControllerNew.m_wl_loop, dif_pos hguard]
  simp only [ControllerNew.poll_flag, hext, Bool.or_false, Bool.false_or, if_false, reduceIte]
  have hretry := m_retry_loop_all_fail rs ext hr hext 5 0 ⟨false, po + 3, re, ob⟩ rfl rfl
  simp only [hretry.1, hretry.2, Bool.or_false, if_true, reduceIte, eq_self_iff_true]
  exact (m_wl_loop_flag_up end_nm inc pem rs ext (curr + inc) _ rfl).1

/-- With no external abort and every read failing, a repetition-loop call with
`i < reps` and the flag down emits the PMT-zeroing action at the line-926
check. -/
theorem m_rep_loop_pmt (end_nm inc start_nm : ℚ) (pem : Bool) (rs ext : ℕ → Bool)
    (hr : ∀ k, rs k = false) (hext : ∀ n, ext n = false)
    (hguard : (0 < inc ∧ start_nm - inc < end_nm) ∨ (inc < 0 ∧ end_nm < start_nm - inc))
    (reps i : ℕ) (st : ControllerNew.MState) (hi : i < reps) (hf : st.flag = false) :
    ControllerNew.SpecEvent.set_pmt_zero
      ∈ (ControllerNew.m_rep_loop end_nm inc start_nm pem rs ext reps i st).2 := by
  obtain ⟨f, po, re, ob⟩ := st
  simp only at hf
  subst hf
  rw [ControllerNew.m_rep_loop]
  simp only [hi, if_true, ControllerNew.poll_flag, hext, Bool.or_false, if_false, reduceIte]
  have hw := m_wl_loop_self_abort end_nm inc pem rs ext hr hext (start_nm - inc)
    ⟨false, po + 1, re, ob⟩ hguard rfl
  simp only [hw, Bool.true_or, if_true, reduceIte]
  simp

/-- C7 amended: every `record_spec` run — completed, externally aborted, or
self-aborted — ends with the tail that re-enables modulation, moves back to
the start wavelength and clears the abort flag; and when the abort flag goes
up during a repetition (here: the five-failed-reads self-abort), the PMT
voltage is zeroed before the tail.  (An abort observed only at the
repetition-loop condition — e.g. raised before the first repetition begins —
reaches the tail without a PMT-zeroing action; see the counterexample.) -/
theorem c7_record_spec_abort_tail :
    (∀ (start_nm end_nm step : ℚ) (reps : ℕ) (pem_off : Bool) (reads_src ext : ℕ → Bool),
      (∃ pre, (ControllerNew.record_spec start_nm end_nm step reps pem_off reads_src ext).events
          = pre ++ [ControllerNew.SpecEvent.set_modulation true,
            ControllerNew.SpecEvent.move_nm start_nm true])
        ∧ (ControllerNew.record_spec start_nm end_nm step reps pem_off reads_src ext).final_flag
            = false)
    ∧ (∀ (start_nm end_nm step : ℚ) (reps : ℕ) (pem_off : Bool) (reads_src ext : ℕ → Bool),
        0 < step → start_nm ≠ end_nm → 0 < reps →
        (∀ k, reads_src k = false) → (∀ n, ext n = false) →
        ControllerNew.SpecEvent.set_pmt_zero
          ∈ (ControllerNew.record_spec start_nm end_nm step reps pem_off reads_src ext).events)
    := by
  constructor
  · intro start_nm end_nm step reps pem_off reads_src ext
    exact ⟨⟨ControllerNew.SpecEvent.set_dwell_time
      :: ControllerNew.SpecEvent.set_modulation (!pem_off)
      :: (ControllerNew.m_rep_loop end_nm (if start_nm > end_nm then -step else step) start_nm
          (!pem_off) reads_src ext reps 0
          ((ControllerNew.poll_flag ext ⟨false, 0, 0, false⟩).2)).2, rfl⟩, rfl⟩
  · intro start_nm end_nm step reps pem_off reads_src ext hstep hne hreps hr hext
    have hguard : (0 < (if start_nm > end_nm then -step else step)
          ∧ start_nm - (if start_nm > end_nm then -step else step) < end_nm)
        ∨ ((if start_nm > end_nm then -step else step) < 0
          ∧ end_nm < start_nm - (if start_nm > end_nm then -step else step)) := by
      rcases lt_or_gt_of_ne hne with hlt | hgt
      · rw [if_neg (not_lt.mpr hlt.le)]
        exact Or.inl ⟨hstep, by linarith⟩
      · rw [if_pos hgt]
        exact Or.inr ⟨by linarith, by linarith⟩
    have hst1 : ((ControllerNew.poll_flag ext
        (⟨false, 0, 0, false⟩ : ControllerNew.MState)).2).flag = false := by
      simp [ControllerNew.poll_flag, hext]
    have hmem := m_rep_loop_pmt end_nm (if start_nm > end_nm then -step else step) start_nm
      (!pem_off) reads_src ext hr hext hguard reps 0 _ hreps hst1
    simp only [ControllerNew.record_spec, List.mem_cons, List.mem_append]
    exact Or.inr (Or.inr (Or.inl hmem))

/-- Witness for C7's amended theorem: the sweep `0 → 1 nm`, step 1, one
repetition, with every read failing and no external abort. -/
theorem c7_record_spec_abort_tail_witness :
    ((∃ pre, (ControllerNew.record_spec 0 1 1 1 false (fun _ => false)
          (fun _ => false)).events
        = pre ++ [ControllerNew.SpecEvent.set_modulation true,
          ControllerNew.SpecEvent.move_nm 0 true])
      ∧ (ControllerNew.record_spec 0 1 1 1 false (fun _ => false)
          (fun _ => false)).final_flag = false)
    ∧ ((0 : ℚ) < 1 ∧ (0 : ℚ) ≠ 1 ∧ 0 < 1
      ∧ ControllerNew.SpecEvent.set_pmt_zero
          ∈ (ControllerNew.record_spec 0 1 1 1 false (fun _ => false)
              (fun _ => false)).events) :=
  ⟨c7_record_spec_abort_tail.1 0 1 1 1 false (fun _ => false) (fun _ => false),
    zero_lt_one, zero_ne_one, Nat.one_pos,
    c7_record_spec_abort_tail.2 0 1 1 1 false (fun _ => false) (fun _ => false)
      zero_lt_one zero_ne_one Nat.one_pos (fun _ => rfl) (fun _ => rfl)⟩

/-- Counterexample to C7's universal PMT clause: with `reps = 1` and an
external abort raised before the first poll, the flag is observed set during
the run (at the dwell wait and at the repetition-loop condition), the run
still ends with the tail and a cleared flag, but no PMT-zeroing action ever
happens. -/
theorem c7_early_abort_no_pmt_zero :
    (ControllerNew.record_spec 0 1 1 1 false (fun _ => true) (fun _ => true)).observed_abort
        = true
    ∧ ControllerNew.SpecEvent.set_pmt_zero
        ∉ (ControllerNew.record_spec 0 1 1 1 false (fun _ => true) (fun _ => true)).events
    ∧ (ControllerNew.record_spec 0 1 1 1 false (fun _ => true) (fun _ => true)).events
        = [ControllerNew.SpecEvent.set_dwell_time, ControllerNew.SpecEvent.set_modulation true,
          ControllerNew.SpecEvent.set_modulation true, ControllerNew.SpecEvent.move_nm 0 true]
    ∧ (ControllerNew.record_spec 0 1 1 1 false (fun _ => true) (fun _ => true)).final_flag
        = false := by
  have hst1 : (ControllerNew.poll_flag (fun _ => true)
      (⟨false, 0, 0, false⟩ : ControllerNew.MState)).2 = ⟨true, 1, 0, true⟩ := by
    simp [ControllerNew.poll_flag]
  have hrep : ControllerNew.m_rep_loop 1 (if (1 : ℚ) < 0 then -1 else 1) 0 true
      (fun _ => true) (fun _ => true) 1 0 (⟨true, 1, 0, true⟩ : ControllerNew.MState)
      = (⟨true, 2, 0, true⟩, []) := by
    rw [ControllerNew.m_rep_loop]
    simp [ControllerNew.poll_flag]
  refine ⟨?_, ?_, ?_, rfl⟩ <;>
    simp [ControllerNew.record_spec, hst1, hrep]
